import Mathlib

/-!
A shallow embedding of `toxfile.py`, the project-local tox plugin of this
repository, together with theorems checking its natural-language
specification.  The host tool (tox) itself, the `pip-tools` compiler, git
and Python's standard library are external collaborators: their behaviour
enters the model only as explicit function parameters (`execute`,
`is_file`, `sha256hex`), never as code of this repository.
-/

namespace Toxfile

/-- Severity of a log record emitted through the plugin's `logger`. -/
inductive LogLevel where
  | debug
  | info
  | warning
deriving DecidableEq, Repr

/-- A filesystem path, modelled as its list of components
(`pathlib.Path` in the source). -/
abbrev FsPath := List String

/-- Render a path as its POSIX string form (what `str(path)` / `!s`
interpolation produces in the source). -/
def pathToString (p : FsPath) : String :=
  String.intercalate "/" p

/-- `Path.parents[1]` of the source: the path with its last two
components removed (the parent of the parent). -/
def pathParents1 (p : FsPath) : FsPath :=
  p.dropLast.dropLast

/-- The fixed lock directory `'dependencies/lock-files/'` passed as
`req_dir` by the source (trailing slash normalised away by `pathlib`). -/
def lockFilesDir : FsPath := ["dependencies", "lock-files"]

/-- Modelled from the spec: `get_constraint_file_path` is imported from
`bin/pip_constraint_helpers.py`, which is not among the sources.  Per the
spec, a constraint file reference is "identified by
(requirement-directory, environment-name, interpreter-tag); resolved to a
filesystem path by a naming convention owned by an external helper", and
the `dependencies/lock-files/` directory holds the per-environment
constraint files.  The model therefore places a file whose name is derived
from the environment name and the interpreter tag directly inside the
requirement directory. -/
def get_constraint_file_path (req_dir : FsPath) (toxenv : String)
    (python_tag : String) : FsPath :=
  req_dir ++ [toxenv ++ "-" ++ python_tag ++ ".txt"]

/-- `tox.config.types.Command`: the argument vector of an install
command.  `post_process_install_command` mutates `cmd.args` in place in
the source; the model returns the new value. -/
structure Command where
  args : List String
deriving DecidableEq, Repr

/-- A `PinnedPipInstaller` instance.  In the source an instance wraps a
tox environment (`self._env`); `instanceId` models Python object
identity so that distinct instances wrapping equally-named environments
are expressible. -/
structure PinnedPipInstaller where
  instanceId : Nat
  envName : String
deriving DecidableEq, Repr

/-- The class-attribute state of `PinnedPipInstaller`.  In the source
`_non_existing_constraint_files: set[Path] = set()` is declared on the
class body and every call site mutates it through
`self._non_existing_constraint_files.add(...)`; attribute lookup finds
the class attribute (no instance attribute is ever assigned), so the set
is one object shared by all instances of the class in the process. -/
structure InstallerClassState where
  non_existing_constraint_files : List FsPath
deriving DecidableEq, Repr

/-- Result of one `post_process_install_command` call: the command after
the plugin's own processing, the class state after the call, and the log
records the call emitted. -/
structure PostProcessResult where
  cmd : Command
  cls : InstallerClassState
  logs : List LogLevel
deriving DecidableEq, Repr

/-- `PinnedPipInstaller.post_process_install_command`.
`is_file` models `pathlib.Path.is_file` (the state of the filesystem at
the moment of the call) and `python_tag` models the runtime-detected
`get_runtime_python_tag()` value; both are external inputs.  The final
delegation `super().post_process_install_command(cmd)` runs the host
tool's stock pip post-processing, which is outside this repository and
out of the spec's scope; the model leaves the command unchanged at that
step. -/
def post_process_install_command (is_file : FsPath → Bool)
    (python_tag : String) (self : PinnedPipInstaller)
    (cls : InstallerClassState) (cmd : Command) : PostProcessResult :=
  let constraint_file_path :=
    get_constraint_file_path lockFilesDir self.envName python_tag
  let constraint_cli_arg := "--constraint=" ++ pathToString constraint_file_path
  if constraint_cli_arg ∈ cmd.args then
    { cmd := cmd, cls := cls, logs := [LogLevel.debug] }
  else if is_file constraint_file_path then
    { cmd := { args := cmd.args ++ [constraint_cli_arg] },
      cls := cls,
      logs := [LogLevel.info, LogLevel.debug] }
  else
    { cmd := cmd,
      cls := { non_existing_constraint_files :=
        if constraint_file_path ∈ cls.non_existing_constraint_files then
          cls.non_existing_constraint_files
        else
          constraint_file_path :: cls.non_existing_constraint_files },
      logs :=
        if constraint_file_path ∈ cls.non_existing_constraint_files then []
        else [LogLevel.warning] }

/-- The constraint CLI argument computed by
`post_process_install_command` for a given environment name and
interpreter tag. -/
def constraintArg (envName : String) (python_tag : String) : String :=
  "--constraint=" ++
    pathToString (get_constraint_file_path lockFilesDir envName python_tag)

/-- Outcome of `tox_env.execute(...)`: the subprocess exit code and its
captured standard output. -/
structure ExecOutcome where
  exit_code : Nat
  out : String
deriving DecidableEq, Repr

/-- The observable state of a `ToxEnv` that `tox_before_run_commands`
touches: its name, `conf['allowlist_externals']` and
`environment_variables`. -/
structure ToxEnvState where
  name : String
  allowlist_externals : List String
  environment_variables : List (String × String)
deriving DecidableEq, Repr

/-- Python dict assignment `d[k] = v` on an association list: overwrite
the existing binding of `k` if present, otherwise append a new one. -/
def setEnvVar (vars : List (String × String)) (k v : String) :
    List (String × String) :=
  if vars.any (fun p => p.1 == k) then
    vars.map (fun p => if p.1 == k then (k, v) else p)
  else
    vars ++ [(k, v)]

/-- Python `str.strip()`: drop whitespace characters from both ends. -/
def pyStrip (s : String) : String :=
  String.mk
    (((s.data.dropWhile Char.isWhitespace).reverse.dropWhile
      Char.isWhitespace).reverse)

/-- The fixed git invocation built by `tox_before_run_commands`. -/
def gitLogCmd : List String :=
  ["git", "-c", "core.pager=", "log", "-1", "--pretty=%ct"]

/-- `tox_before_run_commands`: on the `build-dists` environment,
temporarily allow the external `git` executable (append, then `pop()`
after the call), run `git log -1 --pretty=%ct`, and on success set
`SOURCE_DATE_EPOCH` to the stripped output; on failure log a warning and
return.  `execute` models the host's subprocess engine, an external
collaborator, as a function from the command to its outcome. -/
def tox_before_run_commands (execute : List String → ExecOutcome)
    (tox_env : ToxEnvState) : ToxEnvState × List LogLevel :=
  if tox_env.name = "build-dists" then
    let withGit := { tox_env with
      allowlist_externals := tox_env.allowlist_externals ++ ["git"] }
    let git_log_outcome := execute gitLogCmd
    let popped := { withGit with
      allowlist_externals := withGit.allowlist_externals.dropLast }
    if git_log_outcome.exit_code ≠ 0 then
      (popped, [LogLevel.debug, LogLevel.warning])
    else
      let git_head_timestamp := pyStrip git_log_outcome.out
      ({ popped with
          environment_variables :=
            setEnvVar popped.environment_variables "SOURCE_DATE_EPOCH"
              git_head_timestamp },
        [LogLevel.debug, LogLevel.info])
  else
    (tox_env, [])

/-- The `PipCompileToxEnvBase.commands` argument vector.  `first_args`
is the subclass's `_first_args` value and `pos_args` the stored
`{posargs}` capture (`None` when tox received no `--` separator).  The
source then shell-quotes this vector into one string with `shlex.join`;
the claims below are stated on the vector itself.  Note the guard is
`if self._first_args:` (Python truthiness, i.e. non-emptiness of the
FIXED argument tuple): the stored positional arguments replace the
`--help` placeholder only when `_first_args` is non-empty. -/
def pip_compile_cmd (first_args : List String)
    (pos_args : Option (List String)) : List String :=
  let posArgs : List String :=
    if first_args.isEmpty then
      ["--help"]
    else
      match pos_args with
      | some a => a
      | none => []
  ["python", "-b", "-E", "-s", "-I", "-Werror", "-m", "piptools", "compile"]
    ++ first_args ++ posArgs

/-- `PipCompileToxEnv._first_args`: the plain `pip-compile` env has no
fixed arguments. -/
def pipCompile_first_args : List String := []

/-- `PipCompileBuildLockToxEnv._first_args`. -/
def pipCompileBuildLock_first_args : List String :=
  ["--only-build-deps", "--all-build-deps",
   "--output-file=dependencies/lock-files/dist-build-constraints.txt"]

/-- `PipCompileToxEnvLockToxEnv._first_args`: empty when no positional
arguments were captured (`if not self._pos_args`), otherwise an
`--output-file=` option pointing at the constraint file resolved for the
first positional argument (a target env name) and the companion
requirements input `<lock dir parent>/direct/<name>.in`
(`lock_file_name.parents[1] / 'direct' / f'<toxenv>.in'`; the trailing
`if lock_file_name else ''` guard is vacuous because `pathlib` paths are
always truthy). -/
def pipCompileToxEnvLock_first_args (python_tag : String)
    (pos_args : Option (List String)) : List String :=
  match pos_args with
  | none => []
  | some [] => []
  | some (toxenv :: _) =>
    let lock_file_name :=
      get_constraint_file_path lockFilesDir toxenv python_tag
    ["--output-file=" ++ pathToString lock_file_name,
     pathToString (pathParents1 lock_file_name ++ ["direct", toxenv ++ ".in"])]

/-- The rendered `pip-compile` env command vector as a function of the
captured positional arguments. -/
def pipCompile_commands (pos_args : Option (List String)) : List String :=
  pip_compile_cmd pipCompile_first_args pos_args

/-- The rendered `pip-compile-tox-env-lock` env command vector. -/
def pipCompileToxEnvLock_commands (python_tag : String)
    (pos_args : Option (List String)) : List String :=
  pip_compile_cmd (pipCompileToxEnvLock_first_args python_tag pos_args)
    pos_args

/-- An artifact file found in the `dist` directory: its base name
(`file_path.name`) and its raw bytes (`file_path.read_bytes()`), each
byte a natural number below 256. -/
structure ArtifactFile where
  name : String
  content : List Nat
deriving DecidableEq, Repr

/-- `_compute_sha256sum`: hash the file's bytes.  `sha256hex` models
`hashlib.sha256(...).hexdigest()`, an external library function, as an
explicit parameter. -/
def compute_sha256sum (sha256hex : List Nat → String)
    (file : ArtifactFile) : String :=
  sha256hex file.content

/-- `_produce_sha256sum_line`: the coreutils-compatible checksum line
`f'<digest>  <name>'` (two-space separator). -/
def produce_sha256sum_line (sha256hex : List Nat → String)
    (file : ArtifactFile) : String :=
  compute_sha256sum sha256hex file ++ "  " ++ file.name

/-- `emulated_sha256sum_output` of `tox_after_run_commands`: the
newline-joined checksum lines of all artifacts. -/
def emulated_sha256sum_output (sha256hex : List Nat → String)
    (files : List ArtifactFile) : String :=
  String.intercalate "\n" (files.map (produce_sha256sum_line sha256hex))

/-- UTF-8 encoding of one character (RFC 3629), as `str.encode()`
performs it byte by byte. -/
def utf8EncodeChar (c : Char) : List Nat :=
  let v := c.toNat
  if v < 128 then
    [v]
  else if v < 2048 then
    [192 + v / 64, 128 + v % 64]
  else if v < 65536 then
    [224 + v / 4096, 128 + v / 64 % 64, 128 + v % 64]
  else
    [240 + v / 262144, 128 + v / 4096 % 64, 128 + v / 64 % 64, 128 + v % 64]

/-- UTF-8 encoding of a string (`str.encode()` with the source's
`UNICODE_ENCODING = 'utf-8'`). -/
def utf8Encode (s : String) : List Nat :=
  s.data.flatMap utf8EncodeChar

/-- Decode the payload of a two-byte UTF-8 sequence, rejecting bad
continuation bytes and overlong forms (two-byte code points below 128
never arise, so no surrogate or range check is needed here). -/
def utf8Decode2Bytes (b1 b2 : Nat) : Option Nat :=
  if 128 ≤ b2 ∧ b2 < 192 then
    if 128 ≤ (b1 - 192) * 64 + (b2 - 128) then
      some ((b1 - 192) * 64 + (b2 - 128))
    else none
  else none

/-- Consume the continuation byte of a two-byte UTF-8 sequence. -/
def utf8Step2 (b1 : Nat) : List Nat → Option (Nat × List Nat)
  | b2 :: rest2 => (utf8Decode2Bytes b1 b2).map (fun v => (v, rest2))
  | [] => none

/-- Decode the payload of a three-byte UTF-8 sequence, rejecting bad
continuation bytes, overlong forms and surrogate code points. -/
def utf8Decode3Bytes (b1 b2 b3 : Nat) : Option Nat :=
  if 128 ≤ b2 ∧ b2 < 192 ∧ 128 ≤ b3 ∧ b3 < 192 then
    if 2048 ≤ (b1 - 224) * 4096 + (b2 - 128) * 64 + (b3 - 128)
        ∧ ((b1 - 224) * 4096 + (b2 - 128) * 64 + (b3 - 128) < 55296
          ∨ 57343 < (b1 - 224) * 4096 + (b2 - 128) * 64 + (b3 - 128)) then
      some ((b1 - 224) * 4096 + (b2 - 128) * 64 + (b3 - 128))
    else none
  else none

/-- Consume the continuation bytes of a three-byte UTF-8 sequence. -/
def utf8Step3 (b1 : Nat) : List Nat → Option (Nat × List Nat)
  | b2 :: b3 :: rest3 => (utf8Decode3Bytes b1 b2 b3).map (fun v => (v, rest3))
  | _ => none

/-- Decode the payload of a four-byte UTF-8 sequence, rejecting bad
continuation bytes, overlong forms and out-of-range code points. -/
def utf8Decode4Bytes (b1 b2 b3 b4 : Nat) : Option Nat :=
  if 128 ≤ b2 ∧ b2 < 192 ∧ 128 ≤ b3 ∧ b3 < 192 ∧ 128 ≤ b4 ∧ b4 < 192 then
    if 65536 ≤ (b1 - 240) * 262144 + (b2 - 128) * 4096 + (b3 - 128) * 64
          + (b4 - 128)
        ∧ (b1 - 240) * 262144 + (b2 - 128) * 4096 + (b3 - 128) * 64
          + (b4 - 128) < 1114112 then
      some ((b1 - 240) * 262144 + (b2 - 128) * 4096 + (b3 - 128) * 64
        + (b4 - 128))
    else none
  else none

/-- Consume the continuation bytes of a four-byte UTF-8 sequence. -/
def utf8Step4 (b1 : Nat) : List Nat → Option (Nat × List Nat)
  | b2 :: b3 :: b4 :: rest4 =>
    (utf8Decode4Bytes b1 b2 b3 b4).map (fun v => (v, rest4))
  | _ => none

/-- UTF-8 decoding of a byte sequence into characters, rejecting
truncated sequences, stray continuation bytes, overlong forms,
surrogates and out-of-range code points.  Each decoded character
consumes one unit of fuel; a fuel of at least the number of characters
(for instance the byte count) suffices. -/
def utf8DecodeFuel : Nat → List Nat → Option (List Char)
  | _, [] => some []
  | 0, _ :: _ => none
  | fuel + 1, b1 :: rest =>
    if b1 < 128 then
      (utf8DecodeFuel fuel rest).map (fun cs => Char.ofNat b1 :: cs)
    else if b1 < 192 then
      none
    else if b1 < 224 then
      (utf8Step2 b1 rest).bind (fun p =>
        (utf8DecodeFuel fuel p.2).map (fun cs => Char.ofNat p.1 :: cs))
    else if b1 < 240 then
      (utf8Step3 b1 rest).bind (fun p =>
        (utf8DecodeFuel fuel p.2).map (fun cs => Char.ofNat p.1 :: cs))
    else if b1 < 248 then
      (utf8Step4 b1 rest).bind (fun p =>
        (utf8DecodeFuel fuel p.2).map (fun cs => Char.ofNat p.1 :: cs))
    else none

/-- UTF-8 decoding of a byte sequence into a string. -/
def utf8Decode (bs : List Nat) : Option String :=
  (utf8DecodeFuel bs.length bs).map String.mk

/-- The RFC 4648 standard base64 alphabet used by `base64.b64encode`. -/
def b64Alphabet : List Char :=
  ['A', 'B', 'C', 'D', 'E', 'F', 'G', 'H', 'I', 'J', 'K', 'L', 'M',
   'N', 'O', 'P', 'Q', 'R', 'S', 'T', 'U', 'V', 'W', 'X', 'Y', 'Z',
   'a', 'b', 'c', 'd', 'e', 'f', 'g', 'h', 'i', 'j', 'k', 'l', 'm',
   'n', 'o', 'p', 'q', 'r', 's', 't', 'u', 'v', 'w', 'x', 'y', 'z',
   '0', '1', '2', '3', '4', '5', '6', '7', '8', '9', '+', '/']

/-- Map a 6-bit value to its base64 digit. -/
def b64EncChar (n : Nat) : Char :=
  b64Alphabet.getD n '?'

/-- Map a base64 digit back to its 6-bit value. -/
def b64DecChar (c : Char) : Option Nat :=
  b64Alphabet.findIdx? (fun d => d == c)

/-- `base64.b64encode`: encode bytes three at a time into four base64
digits, padding a trailing group of one or two bytes with `=`. -/
def b64EncodeBytes : List Nat → List Char
  | [] => []
  | [b1] =>
    [b64EncChar (b1 / 4), b64EncChar (b1 % 4 * 16), '=', '=']
  | [b1, b2] =>
    [b64EncChar (b1 / 4), b64EncChar (b1 % 4 * 16 + b2 / 16),
     b64EncChar (b2 % 16 * 4), '=']
  | b1 :: b2 :: b3 :: rest =>
    [b64EncChar (b1 / 4), b64EncChar (b1 % 4 * 16 + b2 / 16),
     b64EncChar (b2 % 16 * 4 + b3 / 64), b64EncChar (b3 % 64)]
      ++ b64EncodeBytes rest

/-- Base64 decoding: four digits at a time back into three bytes,
honouring `=` padding on the final group. -/
def b64DecodeBytes : List Char → Option (List Nat)
  | [] => some []
  | c1 :: c2 :: c3 :: c4 :: rest =>
    match b64DecChar c1, b64DecChar c2 with
    | some n1, some n2 =>
      if c3 = '=' then
        if c4 = '=' ∧ rest = [] ∧ n2 % 16 = 0 then
          some [n1 * 4 + n2 / 16]
        else none
      else
        match b64DecChar c3 with
        | some n3 =>
          if c4 = '=' then
            if rest = [] ∧ n3 % 4 = 0 then
              some [n1 * 4 + n2 / 16, n2 % 16 * 16 + n3 / 4]
            else none
          else
            match b64DecChar c4 with
            | some n4 =>
              (b64DecodeBytes rest).map
                (fun tl => (n1 * 4 + n2 / 16) :: (n2 % 16 * 16 + n3 / 4)
                  :: (n3 % 4 * 64 + n4) :: tl)
            | none => none
        | none => none
    | _, _ => none
  | _ => none

/-- `emulated_base64_w0_output` of `tox_after_run_commands`: the base64
rendering (as text, via `.decode()`) of the UTF-8 bytes of the joined
checksum lines. -/
def emulated_base64_w0_output (sha256hex : List Nat → String)
    (files : List ArtifactFile) : String :=
  String.mk (b64EncodeBytes (utf8Encode
    (emulated_sha256sum_output sha256hex files)))

/-- Base64-decode a text back into the string its UTF-8 bytes spelled:
the reverse direction of the claim about the hasher's output. -/
def b64DecodeText (s : String) : Option String :=
  (b64DecodeBytes s.data).bind utf8Decode

/-! ## Branch characterisation of `post_process_install_command` -/

/-- When the constraint flag is already among the command arguments, the
call only logs a debug record. -/
lemma post_process_flag_present (is_file : FsPath → Bool)
    (python_tag : String) (self : PinnedPipInstaller)
    (cls : InstallerClassState) (cmd : Command)
    (h : constraintArg self.envName python_tag ∈ cmd.args) :
    post_process_install_command is_file python_tag self cls cmd
      = { cmd := cmd, cls := cls, logs := [LogLevel.debug] } := by
  unfold constraintArg at h
  simp only [post_process_install_command]
  rw [if_pos h]

/-- When the flag is absent and the constraint file exists, the call
appends the flag and logs info plus debug records. -/
lemma post_process_file_exists (is_file : FsPath → Bool)
    (python_tag : String) (self : PinnedPipInstaller)
    (cls : InstallerClassState) (cmd : Command)
    (habsent : constraintArg self.envName python_tag ∉ cmd.args)
    (hfile : is_file
      (get_constraint_file_path lockFilesDir self.envName python_tag)
      = true) :
    post_process_install_command is_file python_tag self cls cmd
      = { cmd := { args :=
            cmd.args ++ [constraintArg self.envName python_tag] },
          cls := cls,
          logs := [LogLevel.info, LogLevel.debug] } := by
  unfold constraintArg at habsent ⊢
  simp only [post_process_install_command]
  rw [if_neg habsent, if_pos hfile]

/-- When the flag is absent and the constraint file is missing, the call
records the path and logs a warning exactly if the path was not already
recorded. -/
lemma post_process_file_missing (is_file : FsPath → Bool)
    (python_tag : String) (self : PinnedPipInstaller)
    (cls : InstallerClassState) (cmd : Command)
    (habsent : constraintArg self.envName python_tag ∉ cmd.args)
    (hmiss : is_file
      (get_constraint_file_path lockFilesDir self.envName python_tag)
      = false) :
    post_process_install_command is_file python_tag self cls cmd
      = { cmd := cmd,
          cls := { non_existing_constraint_files :=
            if get_constraint_file_path lockFilesDir self.envName python_tag
                ∈ cls.non_existing_constraint_files then
              cls.non_existing_constraint_files
            else
              get_constraint_file_path lockFilesDir self.envName python_tag
                :: cls.non_existing_constraint_files },
          logs :=
            if get_constraint_file_path lockFilesDir self.envName python_tag
                ∈ cls.non_existing_constraint_files then []
            else [LogLevel.warning] } := by
  unfold constraintArg at habsent
  simp only [post_process_install_command]
  rw [if_neg habsent, hmiss]
  simp

/-- The computed constraint path is in the warned set after any call
that found the flag absent and the file missing. -/
lemma post_process_records_path (is_file : FsPath → Bool)
    (python_tag : String) (self : PinnedPipInstaller)
    (cls : InstallerClassState) (cmd : Command)
    (habsent : constraintArg self.envName python_tag ∉ cmd.args)
    (hmiss : is_file
      (get_constraint_file_path lockFilesDir self.envName python_tag)
      = false) :
    get_constraint_file_path lockFilesDir self.envName python_tag
      ∈ (post_process_install_command is_file python_tag self cls
          cmd).cls.non_existing_constraint_files := by
  rw [post_process_file_missing is_file python_tag self cls cmd habsent hmiss]
  by_cases hmem : get_constraint_file_path lockFilesDir self.envName
      python_tag ∈ cls.non_existing_constraint_files
  · simp [hmem]
  · simp [hmem]

/-- No branch of `post_process_install_command` logs a warning once the
computed path is in the warned set. -/
lemma post_process_no_warning_when_recorded (is_file : FsPath → Bool)
    (python_tag : String) (self : PinnedPipInstaller)
    (cls : InstallerClassState) (cmd : Command)
    (hrec : get_constraint_file_path lockFilesDir self.envName python_tag
      ∈ cls.non_existing_constraint_files) :
    LogLevel.warning ∉
      (post_process_install_command is_file python_tag self cls cmd).logs
      := by
  by_cases hmem : constraintArg self.envName python_tag ∈ cmd.args
  · rw [post_process_flag_present is_file python_tag self cls cmd hmem]
    simp
  · rcases hfile : is_file
        (get_constraint_file_path lockFilesDir self.envName python_tag) with
        _ | _
    · rw [post_process_file_missing is_file python_tag self cls cmd hmem
        hfile]
      simp [hrec]
    · rw [post_process_file_exists is_file python_tag self cls cmd hmem
        hfile]
      simp

/-! ## Claim theorems: constraint-aware installer -/

/-- C1: for every environment name whose constraint file exists on disk
and whose command argument list does not already contain the
corresponding constraint flag, `post_process_install_command` appends
exactly one `--constraint=<path>` argument, where the path is computed
by `get_constraint_file_path` from the fixed `dependencies/lock-files/`
directory, the current environment's name and the detected interpreter
tag. -/
theorem C1_appends_exactly_one_constraint_flag (is_file : FsPath → Bool)
    (python_tag : String) (self : PinnedPipInstaller)
    (cls : InstallerClassState) (cmd : Command)
    (hfile : is_file
      (get_constraint_file_path lockFilesDir self.envName python_tag)
      = true)
    (habsent : constraintArg self.envName python_tag ∉ cmd.args) :
    (post_process_install_command is_file python_tag self cls
        cmd).cmd.args
      = cmd.args ++ [constraintArg self.envName python_tag] := by
  rw [post_process_file_exists is_file python_tag self cls cmd habsent
    hfile]

/-- C1 witness: a concrete instantiation of
`C1_appends_exactly_one_constraint_flag`. -/
theorem C1_appends_exactly_one_constraint_flag_witness :
    (post_process_install_command (fun _ => true) "py311" ⟨0, "docs"⟩
        ⟨[]⟩ ⟨["pip", "install", "-e", "."]⟩).cmd.args
      = ["pip", "install", "-e", "."]
        ++ [constraintArg "docs" "py311"] :=
  C1_appends_exactly_one_constraint_flag (fun _ => true) "py311"
    ⟨0, "docs"⟩ ⟨[]⟩ ⟨["pip", "install", "-e", "."]⟩ rfl (by decide)

/-- C5: when the command argument list already contains the computed
constraint flag, `post_process_install_command` leaves the command
unchanged: no second flag is appended and none is removed. -/
theorem C5_idempotent_when_flag_present (is_file : FsPath → Bool)
    (python_tag : String) (self : PinnedPipInstaller)
    (cls : InstallerClassState) (cmd : Command)
    (hpresent : constraintArg self.envName python_tag ∈ cmd.args) :
    (post_process_install_command is_file python_tag self cls cmd).cmd
      = cmd := by
  rw [post_process_flag_present is_file python_tag self cls cmd hpresent]

/-- C5 witness: a concrete instantiation of
`C5_idempotent_when_flag_present` on a command that already carries the
flag (for example one produced by an earlier injection). -/
theorem C5_idempotent_when_flag_present_witness :
    (post_process_install_command (fun _ => true) "py311" ⟨0, "docs"⟩
        ⟨[]⟩ ⟨["pip", "install", constraintArg "docs" "py311"]⟩).cmd
      = ⟨["pip", "install", constraintArg "docs" "py311"]⟩ :=
  C5_idempotent_when_flag_present (fun _ => true) "py311" ⟨0, "docs"⟩
    ⟨[]⟩ ⟨["pip", "install", constraintArg "docs" "py311"]⟩
    (by simp)

/-- C6: for a missing constraint file (flag absent, path not yet
recorded) the first `post_process_install_command` call logs a warning
and records the path, and any subsequent call of the same installer
instance — hence computing the same path — logs no warning, whatever the
filesystem state and command of that later call. -/
theorem C6_missing_file_warning_logged_once (is_file is_file2 : FsPath → Bool)
    (python_tag : String) (self : PinnedPipInstaller)
    (cls : InstallerClassState) (cmd cmd2 : Command)
    (habsent : constraintArg self.envName python_tag ∉ cmd.args)
    (hmiss : is_file
      (get_constraint_file_path lockFilesDir self.envName python_tag)
      = false)
    (hnew : get_constraint_file_path lockFilesDir self.envName python_tag
      ∉ cls.non_existing_constraint_files) :
    LogLevel.warning
        ∈ (post_process_install_command is_file python_tag self cls
            cmd).logs ∧
      get_constraint_file_path lockFilesDir self.envName python_tag
        ∈ (post_process_install_command is_file python_tag self cls
            cmd).cls.non_existing_constraint_files ∧
      LogLevel.warning
        ∉ (post_process_install_command is_file2 python_tag self
            (post_process_install_command is_file python_tag self cls
              cmd).cls cmd2).logs := by
  refine ⟨?_, ?_, ?_⟩
  · rw [post_process_file_missing is_file python_tag self cls cmd habsent
      hmiss]
    simp [hnew]
  · exact post_process_records_path is_file python_tag self cls cmd
      habsent hmiss
  · exact post_process_no_warning_when_recorded is_file2 python_tag self
      _ cmd2
      (post_process_records_path is_file python_tag self cls cmd habsent
        hmiss)

/-- C6 witness: a concrete instantiation of
`C6_missing_file_warning_logged_once`. -/
theorem C6_missing_file_warning_logged_once_witness :
    LogLevel.warning
        ∈ (post_process_install_command (fun _ => false) "py311"
            ⟨0, "docs"⟩ ⟨[]⟩ ⟨["pip", "install"]⟩).logs ∧
      get_constraint_file_path lockFilesDir "docs" "py311"
        ∈ (post_process_install_command (fun _ => false) "py311"
            ⟨0, "docs"⟩ ⟨[]⟩
            ⟨["pip", "install"]⟩).cls.non_existing_constraint_files ∧
      LogLevel.warning
        ∉ (post_process_install_command (fun _ => false) "py311"
            ⟨0, "docs"⟩
            (post_process_install_command (fun _ => false) "py311"
              ⟨0, "docs"⟩ ⟨[]⟩ ⟨["pip", "install"]⟩).cls
            ⟨["pip", "install"]⟩).logs :=
  C6_missing_file_warning_logged_once (fun _ => false) (fun _ => false)
    "py311" ⟨0, "docs"⟩ ⟨[]⟩ ⟨["pip", "install"]⟩ ⟨["pip", "install"]⟩
    (by decide) rfl (by decide)

/-- C2 counterexample: the claim that the warned set is
per-installer-instance is false.  Two distinct installer instances for
the same environment name share the class-level set: after the first
instance's call warns about the missing file and records the path, the
same call through the other instance is silent. -/
theorem C2_counterexample :
    (⟨0, "docs"⟩ : PinnedPipInstaller) ≠ ⟨1, "docs"⟩ ∧
      LogLevel.warning
        ∈ (post_process_install_command (fun _ => false) "py311"
            ⟨0, "docs"⟩ ⟨[]⟩ ⟨["pip", "install"]⟩).logs ∧
      LogLevel.warning
        ∉ (post_process_install_command (fun _ => false) "py311"
            ⟨1, "docs"⟩
            (post_process_install_command (fun _ => false) "py311"
              ⟨0, "docs"⟩ ⟨[]⟩ ⟨["pip", "install"]⟩).cls
            ⟨["pip", "install"]⟩).logs := by
  refine ⟨by decide, by decide, by decide⟩

/-- C2 (amended): the warned set is a class attribute shared by every
`PinnedPipInstaller` instance of the process, so once any call through
one instance has recorded a path (flag absent, file missing), a call
through ANY instance computing the same path (same environment name and
interpreter tag) logs no warning. -/
theorem C2_warned_set_shared_across_instances
    (is_file is_file2 : FsPath → Bool) (python_tag : String)
    (self other : PinnedPipInstaller) (cls : InstallerClassState)
    (cmd cmd2 : Command)
    (habsent : constraintArg self.envName python_tag ∉ cmd.args)
    (hmiss : is_file
      (get_constraint_file_path lockFilesDir self.envName python_tag)
      = false)
    (hsame : other.envName = self.envName) :
    LogLevel.warning
      ∉ (post_process_install_command is_file2 python_tag other
          (post_process_install_command is_file python_tag self cls
            cmd).cls cmd2).logs := by
  apply post_process_no_warning_when_recorded
  rw [hsame]
  exact post_process_records_path is_file python_tag self cls cmd habsent
    hmiss

/-- C2 (amended) witness: a concrete instantiation of
`C2_warned_set_shared_across_instances` with two distinct instances. -/
theorem C2_warned_set_shared_across_instances_witness :
    LogLevel.warning
      ∉ (post_process_install_command (fun _ => false) "py311"
          ⟨1, "docs"⟩
          (post_process_install_command (fun _ => false) "py311"
            ⟨0, "docs"⟩ ⟨[]⟩ ⟨["pip", "install"]⟩).cls
          ⟨["pip", "install", "tox"]⟩).logs :=
  C2_warned_set_shared_across_instances (fun _ => false) (fun _ => false)
    "py311" ⟨0, "docs"⟩ ⟨1, "docs"⟩ ⟨[]⟩ ⟨["pip", "install"]⟩
    ⟨["pip", "install", "tox"]⟩ (by decide) rfl rfl

/-- C4 counterexample: the claim that a previously-warned path is never
applied afterwards is false.  After a first call warns about the missing
file and records the path, a later call of the SAME instance at a moment
the file exists does append the constraint argument: the warned set only
suppresses log records, it is not consulted by the existence branch. -/
theorem C4_counterexample :
    LogLevel.warning
        ∈ (post_process_install_command (fun _ => false) "py311"
            ⟨0, "docs"⟩ ⟨[]⟩ ⟨["pip", "install"]⟩).logs ∧
      (post_process_install_command (fun _ => true) "py311" ⟨0, "docs"⟩
          (post_process_install_command (fun _ => false) "py311"
            ⟨0, "docs"⟩ ⟨[]⟩ ⟨["pip", "install"]⟩).cls
          ⟨["pip", "install"]⟩).cmd.args
        = ["pip", "install", constraintArg "docs" "py311"] := by
  refine ⟨by decide, by decide⟩

/-- C4 (amended): the warning-suppression set never blocks application.
Even when the computed path is already recorded as missing, a call that
finds the file existing (and the flag absent) appends the constraint
argument. -/
theorem C4_recorded_path_still_applied (is_file : FsPath → Bool)
    (python_tag : String) (self : PinnedPipInstaller)
    (cls : InstallerClassState) (cmd : Command)
    (_hwarned : get_constraint_file_path lockFilesDir self.envName
      python_tag ∈ cls.non_existing_constraint_files)
    (hfile : is_file
      (get_constraint_file_path lockFilesDir self.envName python_tag)
      = true)
    (habsent : constraintArg self.envName python_tag ∉ cmd.args) :
    (post_process_install_command is_file python_tag self cls
        cmd).cmd.args
      = cmd.args ++ [constraintArg self.envName python_tag] := by
  rw [post_process_file_exists is_file python_tag self cls cmd habsent
    hfile]

/-- C4 (amended) witness: a concrete instantiation of
`C4_recorded_path_still_applied`. -/
theorem C4_recorded_path_still_applied_witness :
    (post_process_install_command (fun _ => true) "py311" ⟨0, "docs"⟩
        ⟨[get_constraint_file_path lockFilesDir "docs" "py311"]⟩
        ⟨["pip", "install"]⟩).cmd.args
      = ["pip", "install"] ++ [constraintArg "docs" "py311"] :=
  C4_recorded_path_still_applied (fun _ => true) "py311" ⟨0, "docs"⟩
    ⟨[get_constraint_file_path lockFilesDir "docs" "py311"]⟩
    ⟨["pip", "install"]⟩ (by simp) rfl (by decide)

/-! ## Claim theorems: timestamp injector -/

/-- C7: on the `build-dists` environment, a non-zero exit code of the
git invocation makes `tox_before_run_commands` log a warning and leave
the environment's variables untouched; a zero exit code makes it set
`SOURCE_DATE_EPOCH` to the stripped command output. -/
theorem C7_timestamp_injector_exit_code_handling
    (execute : List String → ExecOutcome) (tox_env : ToxEnvState)
    (hname : tox_env.name = "build-dists") :
    ((execute gitLogCmd).exit_code ≠ 0 →
      (tox_before_run_commands execute tox_env).1.environment_variables
          = tox_env.environment_variables ∧
        LogLevel.warning ∈ (tox_before_run_commands execute tox_env).2) ∧
      ((execute gitLogCmd).exit_code = 0 →
        (tox_before_run_commands execute tox_env).1.environment_variables
          = setEnvVar tox_env.environment_variables "SOURCE_DATE_EPOCH"
              (pyStrip (execute gitLogCmd).out)) := by
  constructor
  · intro hexit
    simp [tox_before_run_commands, hname, hexit]
  · intro hexit
    simp [tox_before_run_commands, hname, hexit]

/-- C7 witness: concrete instantiations of
`C7_timestamp_injector_exit_code_handling`, one per branch. -/
theorem C7_timestamp_injector_exit_code_handling_witness :
    ((tox_before_run_commands (fun _ => ⟨1, "fatal"⟩)
          ⟨"build-dists", ["bash"], [("CI", "true")]⟩).1.environment_variables
        = [("CI", "true")] ∧
      LogLevel.warning ∈ (tox_before_run_commands (fun _ => ⟨1, "fatal"⟩)
          ⟨"build-dists", ["bash"], [("CI", "true")]⟩).2) ∧
      (tox_before_run_commands (fun _ => ⟨0, "1723456\n"⟩)
          ⟨"build-dists", ["bash"], [("CI", "true")]⟩).1.environment_variables
        = [("CI", "true"), ("SOURCE_DATE_EPOCH", "1723456")] := by
  refine ⟨(C7_timestamp_injector_exit_code_handling
      (fun _ => ⟨1, "fatal"⟩) ⟨"build-dists", ["bash"], [("CI", "true")]⟩
      rfl).1 (by decide), ?_⟩
  have h := (C7_timestamp_injector_exit_code_handling
      (fun _ => ⟨0, "1723456\n"⟩)
      ⟨"build-dists", ["bash"], [("CI", "true")]⟩ rfl).2 rfl
  rw [h]
  decide

/-- C10: on the `build-dists` environment the external allow-list after
`tox_before_run_commands` returns equals its value before the call — the
git executable is appended and then popped again — in both the zero and
the non-zero exit-code branches. -/
theorem C10_allowlist_restored (execute : List String → ExecOutcome)
    (tox_env : ToxEnvState) (hname : tox_env.name = "build-dists") :
    (tox_before_run_commands execute tox_env).1.allowlist_externals
      = tox_env.allowlist_externals := by
  by_cases hexit : (execute gitLogCmd).exit_code = 0
  · simp [tox_before_run_commands, hname, hexit]
  · simp [tox_before_run_commands, hname, hexit]

/-- C10 witness: concrete instantiations of `C10_allowlist_restored`,
one per exit-code branch. -/
theorem C10_allowlist_restored_witness :
    (tox_before_run_commands (fun _ => ⟨1, "fatal"⟩)
        ⟨"build-dists", ["bash", "env"], []⟩).1.allowlist_externals
      = ["bash", "env"] ∧
    (tox_before_run_commands (fun _ => ⟨0, "1723456\n"⟩)
        ⟨"build-dists", ["bash", "env"], []⟩).1.allowlist_externals
      = ["bash", "env"] :=
  ⟨C10_allowlist_restored (fun _ => ⟨1, "fatal"⟩)
      ⟨"build-dists", ["bash", "env"], []⟩ rfl,
    C10_allowlist_restored (fun _ => ⟨0, "1723456\n"⟩)
      ⟨"build-dists", ["bash", "env"], []⟩ rfl⟩

/-! ## Claim theorems: synthesized pip-compile environments -/

/-- C3 (code evaluated at the failing input): the `pip-compile`
environment's `_first_args` tuple is empty, so the
`if self._first_args:` guard never lets the stored positional arguments
replace the `--help` placeholder: with no trailing arguments the
rendered command ends in `--help` as claimed, but with trailing
arguments `["--upgrade"]` it still ends in `--help` and does not contain
`--upgrade`, contradicting the claim, the spec and the source's own
`Run pip-compile posargs` comment. -/
theorem C3_pip_compile_ignores_pos_args :
    pipCompile_commands none
        = ["python", "-b", "-E", "-s", "-I", "-Werror", "-m", "piptools",
           "compile", "--help"] ∧
      pipCompile_commands (some ["--upgrade"])
        = ["python", "-b", "-E", "-s", "-I", "-Werror", "-m", "piptools",
           "compile", "--help"] ∧
      "--upgrade" ∉ pipCompile_commands (some ["--upgrade"]) := by
  refine ⟨rfl, rfl, by decide⟩

/-- C9: for `pip-compile-tox-env-lock` invoked with trailing arguments
headed by a target environment name, the rendered command contains
`--output-file=<constraint file resolved for that name and tag>`
immediately followed by the companion input path
`dependencies/direct/<name>.in`, which ends in `direct/<name>.in` and
lives one directory up from `dependencies/lock-files/`. -/
theorem C9_tox_env_lock_paths (python_tag env_name : String)
    (rest : List String) :
    pipCompileToxEnvLock_commands python_tag (some (env_name :: rest))
        = ["python", "-b", "-E", "-s", "-I", "-Werror", "-m", "piptools",
           "compile",
           "--output-file=" ++ pathToString
             (get_constraint_file_path lockFilesDir env_name python_tag),
           "dependencies/direct/" ++ (env_name ++ ".in")]
          ++ (env_name :: rest) ∧
      (∃ pre, "dependencies/direct/" ++ (env_name ++ ".in")
        = pre ++ ("direct/" ++ (env_name ++ ".in"))) := by
  constructor
  · rfl
  · exact ⟨"dependencies/",
      String.append_assoc "dependencies/" "direct/" (env_name ++ ".in")⟩

/-! ## UTF-8 roundtrip -/

/-- Code points of characters are outside the surrogate range and below
`0x110000`. -/
lemma char_toNat_valid (c : Char) :
    c.toNat < 55296 ∨ (57343 < c.toNat ∧ c.toNat < 1114112) :=
  c.valid

/-- Every byte the UTF-8 encoder emits is below 256. -/
lemma utf8EncodeChar_lt_256 (c : Char) :
    ∀ b ∈ utf8EncodeChar c, b < 256 := by
  have hv := char_toNat_valid c
  intro b hb
  unfold utf8EncodeChar at hb
  by_cases h1 : c.toNat < 128
  · simp [h1] at hb
    omega
  · by_cases h2 : c.toNat < 2048
    · simp [h1, h2] at hb
      rcases hb with hb | hb <;> omega
    · by_cases h3 : c.toNat < 65536
      · simp [h1, h2, h3] at hb
        rcases hb with hb | hb | hb <;> omega
      · simp [h1, h2, h3] at hb
        rcases hb with hb | hb | hb | hb <;> omega

/-- Every byte of a UTF-8 encoded string is below 256. -/
lemma utf8Encode_lt_256 (s : String) : ∀ b ∈ utf8Encode s, b < 256 := by
  intro b hb
  unfold utf8Encode at hb
  rcases List.mem_flatMap.mp hb with ⟨c, _, hbc⟩
  exact utf8EncodeChar_lt_256 c b hbc

/-- Decoding one encoded character off the front of a byte stream yields
that character, spends one unit of fuel, and continues with the rest of
the stream. -/
lemma utf8DecodeFuel_encodeChar (c : Char) (fuel : Nat) (bs : List Nat) :
    utf8DecodeFuel (fuel + 1) (utf8EncodeChar c ++ bs)
      = (utf8DecodeFuel fuel bs).map (fun cs => c :: cs) := by
  have hv := char_toNat_valid c
  by_cases h1 : c.toNat < 128
  · rw [show utf8EncodeChar c = [c.toNat] by
      unfold utf8EncodeChar; rw [if_pos h1]]
    rw [List.cons_append, List.nil_append, utf8DecodeFuel.eq_3,
      if_pos h1, Char.ofNat_toNat]
  · by_cases h2 : c.toNat < 2048
    · rw [show utf8EncodeChar c = [192 + c.toNat / 64, 128 + c.toNat % 64]
        by unfold utf8EncodeChar; rw [if_neg h1, if_pos h2]]
      rw [List.cons_append, List.cons_append, List.nil_append,
        utf8DecodeFuel.eq_3,
        if_neg (by omega), if_neg (by omega), if_pos (by omega)]
      rw [utf8Step2]
      rw [utf8Decode2Bytes, if_pos (by constructor <;> omega),
        if_pos (by omega)]
      rw [show (192 + c.toNat / 64 - 192) * 64 + (128 + c.toNat % 64 - 128)
        = c.toNat by omega]
      simp [Char.ofNat_toNat]
    · by_cases h3 : c.toNat < 65536
      · rw [show utf8EncodeChar c
          = [224 + c.toNat / 4096, 128 + c.toNat / 64 % 64,
             128 + c.toNat % 64] by
          unfold utf8EncodeChar; rw [if_neg h1, if_neg h2, if_pos h3]]
        rw [List.cons_append, List.cons_append, List.cons_append,
          List.nil_append, utf8DecodeFuel.eq_3,
          if_neg (by omega), if_neg (by omega), if_neg (by omega),
          if_pos (by omega)]
        rw [utf8Step3]
        rw [utf8Decode3Bytes,
          if_pos (by refine ⟨by omega, by omega, by omega, by omega⟩),
          if_pos (by constructor <;> omega)]
        rw [show (224 + c.toNat / 4096 - 224) * 4096
            + (128 + c.toNat / 64 % 64 - 128) * 64
            + (128 + c.toNat % 64 - 128)
          = c.toNat by omega]
        simp [Char.ofNat_toNat]
      · rw [show utf8EncodeChar c
          = [240 + c.toNat / 262144, 128 + c.toNat / 4096 % 64,
             128 + c.toNat / 64 % 64, 128 + c.toNat % 64] by
          unfold utf8EncodeChar; rw [if_neg h1, if_neg h2, if_neg h3]]
        rw [List.cons_append, List.cons_append, List.cons_append,
          List.cons_append, List.nil_append, utf8DecodeFuel.eq_3,
          if_neg (by omega), if_neg (by omega), if_neg (by omega),
          if_neg (by omega), if_pos (by omega)]
        rw [utf8Step4]
        rw [utf8Decode4Bytes,
          if_pos (by refine ⟨by omega, by omega, by omega, by omega,
            by omega, by omega⟩),
          if_pos (by constructor <;> omega)]
        rw [show (240 + c.toNat / 262144 - 240) * 262144
            + (128 + c.toNat / 4096 % 64 - 128) * 4096
            + (128 + c.toNat / 64 % 64 - 128) * 64
            + (128 + c.toNat % 64 - 128)
          = c.toNat by omega]
        simp [Char.ofNat_toNat]

/-- Decoding the concatenated encodings of a character list recovers the
list, for every fuel at least the number of characters. -/
lemma utf8DecodeFuel_flatMap (cs : List Char) :
    ∀ extra, utf8DecodeFuel (cs.length + extra) (cs.flatMap utf8EncodeChar)
      = some cs := by
  induction cs with
  | nil => intro extra; rw [List.flatMap_nil, utf8DecodeFuel.eq_1]
  | cons c cs ih =>
    intro extra
    rw [List.flatMap_cons,
      show (c :: cs).length + extra = (cs.length + extra) + 1 by
        rw [List.length_cons]; omega,
      utf8DecodeFuel_encodeChar, ih extra]
    rfl

/-- The encoder emits at least one byte per character. -/
lemma utf8EncodeChar_length_pos (c : Char) :
    1 ≤ (utf8EncodeChar c).length := by
  by_cases h1 : c.toNat < 128
  · rw [show utf8EncodeChar c = [c.toNat] by
      unfold utf8EncodeChar; rw [if_pos h1]]
    simp
  · by_cases h2 : c.toNat < 2048
    · rw [show utf8EncodeChar c = [192 + c.toNat / 64, 128 + c.toNat % 64]
        by unfold utf8EncodeChar; rw [if_neg h1, if_pos h2]]
      simp
    · by_cases h3 : c.toNat < 65536
      · rw [show utf8EncodeChar c
          = [224 + c.toNat / 4096, 128 + c.toNat / 64 % 64,
             128 + c.toNat % 64] by
          unfold utf8EncodeChar; rw [if_neg h1, if_neg h2, if_pos h3]]
        simp
      · rw [show utf8EncodeChar c
          = [240 + c.toNat / 262144, 128 + c.toNat / 4096 % 64,
             128 + c.toNat / 64 % 64, 128 + c.toNat % 64] by
          unfold utf8EncodeChar; rw [if_neg h1, if_neg h2, if_neg h3]]
        simp

/-- A string never has more characters than UTF-8 bytes. -/
lemma length_le_utf8Encode_length (cs : List Char) :
    cs.length ≤ (cs.flatMap utf8EncodeChar).length := by
  induction cs with
  | nil => simp
  | cons c cs ih =>
    rw [List.flatMap_cons, List.length_append, List.length_cons]
    have := utf8EncodeChar_length_pos c
    omega

/-- UTF-8 decoding inverts UTF-8 encoding on every string. -/
lemma utf8_roundtrip (s : String) : utf8Decode (utf8Encode s) = some s := by
  unfold utf8Decode utf8Encode
  obtain ⟨extra, hextra⟩ := Nat.le.dest
    (length_le_utf8Encode_length s.data)
  rw [← hextra, utf8DecodeFuel_flatMap s.data extra]
  rfl

/-! ## Base64 roundtrip -/

/-- Decoding a base64 digit inverts encoding for every 6-bit value. -/
lemma b64DecEncChar (n : Nat) (h : n < 64) :
    b64DecChar (b64EncChar n) = some n := by
  have hall : ∀ m : Fin 64, b64DecChar (b64EncChar m.val) = some m.val := by
    decide
  exact hall ⟨n, h⟩

/-- No base64 digit is the padding character. -/
lemma b64EncChar_ne_pad (n : Nat) (h : n < 64) : b64EncChar n ≠ '=' := by
  have hall : ∀ m : Fin 64, b64EncChar m.val ≠ '=' := by decide
  exact hall ⟨n, h⟩

/-- Base64 decoding inverts base64 encoding on every byte list. -/
lemma b64_roundtrip : ∀ bs : List Nat, (∀ b ∈ bs, b < 256) →
    b64DecodeBytes (b64EncodeBytes bs) = some bs
  | [], _ => rfl
  | [b1], h => by
    have hb1 : b1 < 256 := h b1 (by simp)
    have e1 : b64DecChar (b64EncChar (b1 / 4)) = some (b1 / 4) :=
      b64DecEncChar _ (by omega)
    have e2 : b64DecChar (b64EncChar (b1 % 4 * 16)) = some (b1 % 4 * 16) :=
      b64DecEncChar _ (by omega)
    have hmod : b1 % 4 * 16 % 16 = 0 := by omega
    have hfin : b1 / 4 * 4 + b1 % 4 * 16 / 16 = b1 := by omega
    simp [b64EncodeBytes, b64DecodeBytes, e1, e2, hmod, hfin]
    omega
  | [b1, b2], h => by
    have hb1 : b1 < 256 := h b1 (by simp)
    have hb2 : b2 < 256 := h b2 (by simp)
    have e1 : b64DecChar (b64EncChar (b1 / 4)) = some (b1 / 4) :=
      b64DecEncChar _ (by omega)
    have e2 : b64DecChar (b64EncChar (b1 % 4 * 16 + b2 / 16))
        = some (b1 % 4 * 16 + b2 / 16) := b64DecEncChar _ (by omega)
    have e3 : b64DecChar (b64EncChar (b2 % 16 * 4)) = some (b2 % 16 * 4) :=
      b64DecEncChar _ (by omega)
    have hne : b64EncChar (b2 % 16 * 4) ≠ '=' := b64EncChar_ne_pad _ (by omega)
    have hmod : b2 % 16 * 4 % 4 = 0 := by omega
    have f1 : b1 / 4 * 4 + (b1 % 4 * 16 + b2 / 16) / 16 = b1 := by omega
    have f2 : (b1 % 4 * 16 + b2 / 16) % 16 * 16 + b2 % 16 * 4 / 4 = b2 := by
      omega
    simp [b64EncodeBytes, b64DecodeBytes, e1, e2, e3, hne, hmod, f1, f2]
    omega
  | b1 :: b2 :: b3 :: rest, h => by
    have hb1 : b1 < 256 := h b1 (by simp)
    have hb2 : b2 < 256 := h b2 (by simp)
    have hb3 : b3 < 256 := h b3 (by simp)
    have ih := b64_roundtrip rest (fun b hb => h b (by simp [hb]))
    have e1 : b64DecChar (b64EncChar (b1 / 4)) = some (b1 / 4) :=
      b64DecEncChar _ (by omega)
    have e2 : b64DecChar (b64EncChar (b1 % 4 * 16 + b2 / 16))
        = some (b1 % 4 * 16 + b2 / 16) := b64DecEncChar _ (by omega)
    have e3 : b64DecChar (b64EncChar (b2 % 16 * 4 + b3 / 64))
        = some (b2 % 16 * 4 + b3 / 64) := b64DecEncChar _ (by omega)
    have e4 : b64DecChar (b64EncChar (b3 % 64)) = some (b3 % 64) :=
      b64DecEncChar _ (by omega)
    have hne3 : b64EncChar (b2 % 16 * 4 + b3 / 64) ≠ '=' :=
      b64EncChar_ne_pad _ (by omega)
    have hne4 : b64EncChar (b3 % 64) ≠ '=' := b64EncChar_ne_pad _ (by omega)
    have f1 : b1 / 4 * 4 + (b1 % 4 * 16 + b2 / 16) / 16 = b1 := by omega
    have f2 : (b1 % 4 * 16 + b2 / 16) % 16 * 16 + (b2 % 16 * 4 + b3 / 64) / 4
        = b2 := by omega
    have f3 : (b2 % 16 * 4 + b3 / 64) % 4 * 64 + b3 % 64 = b3 := by omega
    simp [b64EncodeBytes, b64DecodeBytes, e1, e2, e3, e4, hne3, hne4, ih,
      f1, f2, f3]

/-! ## Claim theorems: artifact hasher -/

/-- C8: every artifact's checksum line is
`sha256hex(bytes) ++ two spaces ++ name`, and the hasher's base64 value
— the base64 encoding of the UTF-8 bytes of the newline-joined lines —
decodes back to exactly the joined text, for every artifact list and any
behaviour of the external SHA-256 function. -/
theorem C8_hash_line_format_and_base64_reversible
    (sha256hex : List Nat → String) (files : List ArtifactFile) :
    files.map (produce_sha256sum_line sha256hex)
        = files.map (fun f => sha256hex f.content ++ "  " ++ f.name) ∧
      b64DecodeText (emulated_base64_w0_output sha256hex files)
        = some (emulated_sha256sum_output sha256hex files) := by
  constructor
  · rfl
  · unfold b64DecodeText emulated_base64_w0_output
    rw [show (String.mk (b64EncodeBytes (utf8Encode
          (emulated_sha256sum_output sha256hex files)))).data
        = b64EncodeBytes (utf8Encode
          (emulated_sha256sum_output sha256hex files)) from rfl,
      b64_roundtrip _ (utf8Encode_lt_256 _)]
    simp [utf8_roundtrip]

end Toxfile
